import Mathlib

/-!
# Verification of the database_system session/connection core

A shallow embedding of the repository's session/connection manager
(`database_manager` / `postgres_manager`) and its result-marshalling model,
with theorems settling the frozen claims about it.

The core implementation files (`database_manager.h/.cpp`,
`postgres_manager.h/.cpp`, `database_types.h`) are not present under `src/`;
only the unit tests, benchmarks and samples that call them are.  Every
definition below whose doc comment starts with `Modelled from the spec:`
embeds the missing component faithfully from the specification's words
(spec.md sections 3, 4, 5, 6 and 8), constrained where applicable by the
behaviour the unit tests assert.
-/

namespace DatabaseSystem

/-- Modelled from the spec: the backend-kind enum `database_types`
(from the absent `database_types.h`).  The unit test
`DatabaseTypesTest.EnumValues` asserts the underlying encoding
`none = 0`, `postgres = 1`. -/
inductive database_types where
  | none
  | postgres
deriving DecidableEq, Repr

/-- Modelled from the spec: the numeric encoding of `database_types`
(the C++ `static_cast<int>` of the enum). -/
def database_types.toNat : database_types → Nat
  | database_types.none => 0
  | database_types.postgres => 1

/-- Modelled from the spec: connection status of a session,
`{Disconnected, Connected, Reconnecting}` (spec section 3, Connection
Session attributes). -/
inductive ConnectionStatus where
  | Disconnected
  | Connected
  | Reconnecting
deriving DecidableEq, Repr

/-- Modelled from the spec: the Transaction State enum `{Idle, Active}`
(spec section 3). -/
inductive TransactionState where
  | Idle
  | Active
deriving DecidableEq, Repr

/-! ## The Value model and result marshalling (spec sections 3 and 4.4)

The `container_module` value types consumed by the tests are also not under
`src/`; the tagged union below follows spec section 3 (Value).  The
`floating` payload is modelled as a rational number: only the tag behaviour
of marshalling is claimed, never floating-point arithmetic. -/

/-- Modelled from the spec: a raw typed datum as produced by the Backend
Adapter for one column of one result row (spec section 4.4): backend-native
null, boolean, integer, floating, text, binary, composite and array data. -/
inductive RawDatum where
  | rnull
  | rbool (b : Bool)
  | rint (i : Int)
  | rfloat (q : ℚ)
  | rtext (s : String)
  | rbinary (bs : List Nat)
  | rcomposite (fields : List (String × RawDatum))
  | rarray (ds : List RawDatum)

/-- Modelled from the spec: the closed tagged union `Value`
(spec section 3): `null`, `boolean`, `integer` (64-bit signed),
`floating`, `string`, `binary`, `container` (nested row) and `array`. -/
inductive Value where
  | null
  | boolean (b : Bool)
  | integer (i : Int)
  | floating (q : ℚ)
  | string (s : String)
  | binary (bs : List Nat)
  | container (fields : List (String × Value))
  | array (vs : List Value)

/-- The eight tags of the `Value` tagged union. -/
inductive ValueTag where
  | tnull
  | tboolean
  | tinteger
  | tfloating
  | tstring
  | tbinary
  | tcontainer
  | tarray
deriving DecidableEq, Repr

/-- The tag of a `Value`. -/
def Value.tag : Value → ValueTag
  | Value.null => ValueTag.tnull
  | Value.boolean _ => ValueTag.tboolean
  | Value.integer _ => ValueTag.tinteger
  | Value.floating _ => ValueTag.tfloating
  | Value.string _ => ValueTag.tstring
  | Value.binary _ => ValueTag.tbinary
  | Value.container _ => ValueTag.tcontainer
  | Value.array _ => ValueTag.tarray

/-- The Value tag that spec section 4.4's fixed rule assigns to each
backend-native datum kind: null → `tnull`, boolean → `tboolean`, and so on,
composite → `tcontainer`, array → `tarray`. -/
def RawDatum.specTag : RawDatum → ValueTag
  | RawDatum.rnull => ValueTag.tnull
  | RawDatum.rbool _ => ValueTag.tboolean
  | RawDatum.rint _ => ValueTag.tinteger
  | RawDatum.rfloat _ => ValueTag.tfloating
  | RawDatum.rtext _ => ValueTag.tstring
  | RawDatum.rbinary _ => ValueTag.tbinary
  | RawDatum.rcomposite _ => ValueTag.tcontainer
  | RawDatum.rarray _ => ValueTag.tarray

mutual

/-- Modelled from the spec: the result marshaller (spec section 4.4).
It maps each raw datum to a Value by the fixed rule: backend-native null →
Value `null`; boolean/integer/floating/text/binary → the matching Value tag;
composite and array data are marshalled recursively into `container` and
`array` Values.  It is a total function: every raw datum maps to exactly
one Value, with no silent drops. -/
def marshal : RawDatum → Value
  | RawDatum.rnull => Value.null
  | RawDatum.rbool b => Value.boolean b
  | RawDatum.rint i => Value.integer i
  | RawDatum.rfloat q => Value.floating q
  | RawDatum.rtext s => Value.string s
  | RawDatum.rbinary bs => Value.binary bs
  | RawDatum.rcomposite fields => Value.container (marshalFields fields)
  | RawDatum.rarray ds => Value.array (marshalList ds)

/-- Marshal the named fields of a composite datum, preserving order. -/
def marshalFields : List (String × RawDatum) → List (String × Value)
  | [] => []
  | (k, d) :: rest => (k, marshal d) :: marshalFields rest

/-- Marshal the elements of an array datum, preserving order. -/
def marshalList : List RawDatum → List Value
  | [] => []
  | d :: rest => marshal d :: marshalList rest

end

/-- C6: Result marshalling maps every backend-native null datum to a Value
tagged `null` — never to a zero, false, or empty-string placeholder — and
every non-null datum to the Value tag matching its backend-native type;
`marshal` being a total Lean function, decoding is total with no silent
drops. -/
theorem marshal_null_iff_and_tag (d : RawDatum) :
    (marshal d = Value.null ↔ d = RawDatum.rnull) ∧
    (marshal d).tag = d.specTag := by
  cases d <;> simp [marshal, Value.tag, RawDatum.specTag]

/-! ## Connection descriptors (spec section 6)

A connection descriptor in string form is a sequence of space-separated
`key=value` pairs with recognized keys `host`, `port`, `dbname`, `user`,
`password`.  Parsing is done over the character list of the string so the
well-formedness check evaluates inside the kernel. -/

/-- Split a character list on a separator character; adjacent separators
yield empty chunks. -/
def splitChars (sep : Char) : List Char → List (List Char)
  | [] => [[]]
  | c :: rest =>
    match splitChars sep rest with
    | [] => if c = sep then [[], []] else [[c]]
    | w :: ws => if c = sep then [] :: w :: ws else (c :: w) :: ws

/-- Parse one `key=value` token of a connection descriptor: exactly one
`=`, with a nonempty key and a nonempty value. -/
def parseToken (t : List Char) : Option (String × String) :=
  match splitChars '=' t with
  | [k, v] =>
    if k.isEmpty || v.isEmpty then Option.none
    else Option.some (String.mk k, String.mk v)
  | _ => Option.none

/-- The five keys spec section 6 recognizes in a connection descriptor. -/
def recognizedKeys : List String := ["host", "port", "dbname", "user", "password"]

/-- Modelled from the spec: the keys a descriptor must carry to name a
server and a database.  The unit tests connect successfully with
`host=... port=... dbname=... user=...` (no `password`), so `user` and
`password` are optional; `host`, `port` and `dbname` are required. -/
def requiredKeys : List String := ["host", "port", "dbname"]

/-- The nonempty space-separated tokens of a descriptor string. -/
def descriptorTokens (d : String) : List (List Char) :=
  (splitChars ' ' d.data).filter (fun t => !t.isEmpty)

/-- The recognized keys present in a descriptor string. -/
def descriptorKeys (d : String) : List String :=
  (descriptorTokens d).filterMap (fun t => (parseToken t).map Prod.fst)

/-- Modelled from the spec: syntactic well-formedness of a connection
descriptor (spec section 6): every token is a `key=value` pair with a
recognized key, and every required key is present.  A descriptor is
malformed exactly when this is `false`. -/
def wellFormed (d : String) : Bool :=
  (descriptorTokens d).all (fun t =>
    match parseToken t with
    | Option.some (k, _) => recognizedKeys.contains k
    | Option.none => false)
  && requiredKeys.all (fun k => (descriptorKeys d).contains k)

/-! ## The backend adapter and the session (spec sections 3, 4.1, 4.2, 4.3)

The Backend Adapter is the external collaborator executing SQL.  The core
treats SQL text as opaque, so backend execution is embedded at the level of
the adapter boundary of spec section 6: statements carry the data the
backend would act on (tables as lists of rows), and `calls` counts the
network round trips — the "network-call counter" of spec section 8. -/

/-- A raw result row at the adapter boundary: an ordered sequence of
(column name, raw typed datum) pairs (spec section 4.4). -/
abbrev RawRow := List (String × RawDatum)

/-- Modelled from the spec: the Backend Adapter's observable state —
whether it is reachable and executing (`healthy`), its tables, and a
network-call counter counting every round trip the session makes. -/
structure Backend where
  healthy : Bool
  tables : List (String × List RawRow)
  calls : Nat

/-- Record one network round trip to the backend. -/
def bump (b : Backend) : Backend :=
  { b with calls := b.calls + 1 }

/-- The rows of a named table (empty if the table does not exist). -/
def getTable (b : Backend) (tbl : String) : List RawRow :=
  match b.tables.lookup tbl with
  | Option.some rows => rows
  | Option.none => []

/-- Replace the rows of a named table, creating it if absent. -/
def setTable (b : Backend) (tbl : String) (rows : List RawRow) : Backend :=
  { b with tables :=
      match b.tables.lookup tbl with
      | Option.none => (tbl, rows) :: b.tables
      | Option.some _ =>
        b.tables.map (fun p => if p.1 = tbl then (tbl, rows) else p) }

/-- Modelled from the spec: the Connection Session (spec section 3) —
current connection status, selected backend kind, Transaction State, and
the last-used connection descriptor.  Created in Disconnected status with
backend kind `none` and Transaction State `Idle`. -/
structure Session where
  status : ConnectionStatus
  db_type : database_types
  txn : TransactionState
  last_descriptor : Option String
deriving Repr

/-- A freshly created session: Disconnected, kind `none`, `Idle`. -/
def freshSession : Session :=
  { status := ConnectionStatus.Disconnected
    db_type := database_types.none
    txn := TransactionState.Idle
    last_descriptor := Option.none }

/-- Modelled from the spec: `set_mode` / `set_database_type` selects the
backend kind and reports success (the unit test `DatabaseManagerTest.SetMode`
asserts success for `postgres`). -/
def set_mode (s : Session) (t : database_types) : Bool × Session :=
  (true, { s with db_type := t })

/-- Modelled from the spec: the `database_type()` observer — a pure
observer with no side effects (spec section 4.1). -/
def database_type (s : Session) : database_types :=
  s.db_type

/-- Modelled from the spec: `connect(connection_descriptor)`
(spec section 4.1 and 6).  A malformed descriptor fails without any
backend round trip.  A well-formed descriptor costs one round trip; on
success the status becomes Connected and the Transaction State resets to
Idle; on backend failure the session ends up Disconnected. -/
def connect (s : Session) (b : Backend) (d : String) : Bool × Session × Backend :=
  if wellFormed d = false then (false, s, b)
  else if b.healthy then
    (true,
     { s with status := ConnectionStatus.Connected
              txn := TransactionState.Idle
              last_descriptor := Option.some d },
     bump b)
  else
    (false,
     { s with status := ConnectionStatus.Disconnected
              txn := TransactionState.Idle },
     bump b)

/-- Modelled from the spec: `disconnect()` (spec section 4.1): fails if the
status is already Disconnected (the no-op is reported as failure); on
success the backend handle is closed (one round trip), any Active
transaction is implicitly rolled back, Transaction State resets to Idle
and the status becomes Disconnected. -/
def disconnect (s : Session) (b : Backend) : Bool × Session × Backend :=
  if s.status = ConnectionStatus.Disconnected then (false, s, b)
  else
    (true,
     { s with status := ConnectionStatus.Disconnected
              txn := TransactionState.Idle },
     bump b)

/-- Modelled from the spec: `test_connection()` (spec section 4.1): issues
a lightweight round trip without mutating Transaction State (or any other
session state); it never throws — it is a total function whose result is
`true` (healthy) or `false` (unhealthy), and every backend error is
captured and reported as `false`. -/
def test_connection (s : Session) (b : Backend) : Bool × Session × Backend :=
  if s.status = ConnectionStatus.Connected then (b.healthy, s, bump b)
  else (false, s, b)

/-- Modelled from the spec: the schema (DDL) operation `create_query`
(spec section 4.2): precondition Connected, checked locally without
contacting the backend; success returns `true`, failure `false`.  The DDL
text is opaque; its effect on the schema is outside the claims. -/
def create_query (s : Session) (b : Backend) (ddl : String) :
    Bool × Session × Backend :=
  if s.status = ConnectionStatus.Connected then
    (b.healthy && ddl.length > 0, s, bump b)
  else (false, s, b)

/-- Modelled from the spec: `insert_query` (spec section 4.2): precondition
Connected, checked locally; on success the backend appends the statement's
value-rows to the table and reports the count of rows inserted; failure
returns `0`. -/
def insert_query (s : Session) (b : Backend) (tbl : String)
    (vals : List RawRow) : Nat × Session × Backend :=
  if s.status = ConnectionStatus.Connected then
    if b.healthy then
      (vals.length, s, setTable (bump b) tbl (getTable b tbl ++ vals))
    else (0, s, bump b)
  else (0, s, b)

/-- Modelled from the spec: `update_query` (spec section 4.2): precondition
Connected, checked locally; on success the backend rewrites every row
matching the statement's predicate and reports the count of rows matched
(`0` when none match); failure returns `0`. -/
def update_query (s : Session) (b : Backend) (tbl : String)
    (p : RawRow → Bool) (f : RawRow → RawRow) : Nat × Session × Backend :=
  if s.status = ConnectionStatus.Connected then
    if b.healthy then
      ((getTable b tbl).countP p, s,
       setTable (bump b) tbl
         ((getTable b tbl).map (fun r => if p r then f r else r)))
    else (0, s, bump b)
  else (0, s, b)

/-- Modelled from the spec: `delete_query` (spec section 4.2): precondition
Connected, checked locally; on success the backend removes every row
matching the statement's predicate and reports the count of rows matched
(`0` when none match); failure returns `0`. -/
def delete_query (s : Session) (b : Backend) (tbl : String)
    (p : RawRow → Bool) : Nat × Session × Backend :=
  if s.status = ConnectionStatus.Connected then
    if b.healthy then
      ((getTable b tbl).countP p, s,
       setTable (bump b) tbl ((getTable b tbl).filter (fun r => !p r)))
    else (0, s, bump b)
  else (0, s, b)

/-- Modelled from the spec: `select_query` (spec section 4.2): precondition
Connected, checked locally; success returns a present Query Result — the
(possibly empty) sequence of matching rows; failure returns an absent
result, distinct from an empty one. -/
def select_query (s : Session) (b : Backend) (tbl : String)
    (p : RawRow → Bool) : Option (List RawRow) × Session × Backend :=
  if s.status = ConnectionStatus.Connected then
    if b.healthy then
      (Option.some ((getTable b tbl).filter p), s, bump b)
    else (Option.none, s, bump b)
  else (Option.none, s, b)

/-- Modelled from the spec: `begin_transaction()` (spec section 4.3): legal
only from `Idle`; fails with no state change if already `Active` or not
Connected (a local check — `TransactionStateError` and `NotConnectedError`
never reach the backend, spec section 7); on success issues the backend's
transaction-start statement and moves to `Active`. -/
def begin_transaction (s : Session) (b : Backend) : Bool × Session × Backend :=
  if s.status ≠ ConnectionStatus.Connected then (false, s, b)
  else if s.txn = TransactionState.Active then (false, s, b)
  else if b.healthy then
    (true, { s with txn := TransactionState.Active }, bump b)
  else (false, s, bump b)

/-- Modelled from the spec: `commit_transaction()` (spec section 4.3):
legal only from `Active`; fails with no state change if `Idle` or not
Connected (a local check); on success issues the backend's commit and
moves to `Idle`. -/
def commit_transaction (s : Session) (b : Backend) : Bool × Session × Backend :=
  if s.status ≠ ConnectionStatus.Connected then (false, s, b)
  else if s.txn = TransactionState.Idle then (false, s, b)
  else if b.healthy then
    (true, { s with txn := TransactionState.Idle }, bump b)
  else (false, s, bump b)

/-- Modelled from the spec: `rollback_transaction()` (spec section 4.3):
legal only from `Active`; fails with no state change if `Idle` or not
Connected (a local check); on success issues the backend's rollback and
moves to `Idle`. -/
def rollback_transaction (s : Session) (b : Backend) : Bool × Session × Backend :=
  if s.status ≠ ConnectionStatus.Connected then (false, s, b)
  else if s.txn = TransactionState.Idle then (false, s, b)
  else if b.healthy then
    (true, { s with txn := TransactionState.Idle }, bump b)
  else (false, s, bump b)

/-! ## The process-wide default accessor (spec sections 5 and 9)

`database_manager::handle()` returns a reference to one process-wide,
lazily-initialized session instance.  The C++11 function-local static
serializes initialization, so concurrent calls observe it as some
sequence of atomic accessor calls; instances are identified by their id. -/

/-- Modelled from the spec: the process state backing the default accessor
`database_manager::handle()` — the id of the singleton instance once
lazily initialized, and a supply of fresh instance ids. -/
structure ProcessState where
  inst : Option Nat
  next_id : Nat

/-- Modelled from the spec: the default accessor `database_manager::handle()`
(spec section 5): lazily initializes the one process-wide instance on first
access and returns a reference to it (here, its id) on every access. -/
def handle : ProcessState → Nat × ProcessState
  | ⟨Option.some i, n⟩ => (i, ⟨Option.some i, n⟩)
  | ⟨Option.none, n⟩ => (n, ⟨Option.some n, n + 1⟩)

/-- The result and state of the `(n+1)`-th call to the accessor in a
sequence of calls starting from process state `p`. -/
def handle_iter (p : ProcessState) : Nat → Nat × ProcessState
  | 0 => handle p
  | n + 1 => handle (handle_iter p n).2

/-! ## Concrete fixtures used by the witness theorems -/

/-- A concrete two-row table: ('Alice', 25) and ('Bob', 30). -/
def demoRows : List RawRow :=
  [[("name", RawDatum.rtext "Alice"), ("age", RawDatum.rint 25)],
   [("name", RawDatum.rtext "Bob"), ("age", RawDatum.rint 30)]]

/-- A healthy backend holding table `t` with the two demo rows. -/
def bDemo : Backend := { healthy := true, tables := [("t", demoRows)], calls := 0 }

/-- An unreachable or failing backend. -/
def bUnhealthy : Backend := { healthy := false, tables := [], calls := 0 }

/-- A disconnected postgres-mode session. -/
def sDisc : Session := { freshSession with db_type := database_types.postgres }

/-- A connected postgres-mode session, no transaction in progress. -/
def sConn : Session :=
  { status := ConnectionStatus.Connected
    db_type := database_types.postgres
    txn := TransactionState.Idle
    last_descriptor := Option.some "host=localhost port=5432 dbname=postgres user=postgres" }

/-- A connected session inside an Active transaction. -/
def sActive : Session := { sConn with txn := TransactionState.Active }

/-! ## The claims -/

/-- C1: every operation in {schema (create_query), insert, update, delete,
select} invoked while the session is Disconnected returns its documented
sentinel — `false` for schema, `0` for insert/update/delete, an absent
result for select — by a purely local check: the session and the backend
(including its network-call counter) are left unchanged, so no backend
call is made. -/
theorem disconnected_ops_local_sentinels (s : Session) (b : Backend)
    (ddl tbl : String) (vals : List RawRow) (p q r : RawRow → Bool)
    (f : RawRow → RawRow)
    (hs : s.status = ConnectionStatus.Disconnected) :
    create_query s b ddl = (false, s, b) ∧
    insert_query s b tbl vals = (0, s, b) ∧
    update_query s b tbl p f = (0, s, b) ∧
    delete_query s b tbl q = (0, s, b) ∧
    select_query s b tbl r = (Option.none, s, b) := by
  simp [create_query, insert_query, update_query, delete_query, select_query, hs]

/-- Witness for C1 at a concrete disconnected session and backend. -/
theorem disconnected_ops_local_sentinels_witness :
    create_query sDisc bDemo "CREATE TABLE t (id INT)" = (false, sDisc, bDemo) ∧
    insert_query sDisc bDemo "t" demoRows = (0, sDisc, bDemo) ∧
    select_query sDisc bDemo "t" (fun _ => true) = (Option.none, sDisc, bDemo) :=
  have h := disconnected_ops_local_sentinels sDisc bDemo "CREATE TABLE t (id INT)"
    "t" demoRows (fun _ => true) (fun _ => true) (fun _ => true) id rfl
  ⟨h.1, h.2.1, h.2.2.2.2⟩

/-- C2: the transaction state machine admits only Idle→Active via
`begin_transaction` and Active→Idle via `commit_transaction` or
`rollback_transaction`: begin while already Active, or while not
Connected, fails and leaves the whole session (hence the Transaction
State) unchanged; commit or rollback while Idle fails; and each successful
call performed exactly its one legal transition. -/
theorem transaction_state_machine (s : Session) (b : Backend) :
    (s.txn = TransactionState.Active → begin_transaction s b = (false, s, b)) ∧
    (s.status ≠ ConnectionStatus.Connected → begin_transaction s b = (false, s, b)) ∧
    ((begin_transaction s b).1 = true →
      s.txn = TransactionState.Idle ∧
      (begin_transaction s b).2.1.txn = TransactionState.Active) ∧
    (s.txn = TransactionState.Idle →
      commit_transaction s b = (false, s, b) ∧
      rollback_transaction s b = (false, s, b)) ∧
    ((commit_transaction s b).1 = true →
      s.txn = TransactionState.Active ∧
      (commit_transaction s b).2.1.txn = TransactionState.Idle) ∧
    ((rollback_transaction s b).1 = true →
      s.txn = TransactionState.Active ∧
      (rollback_transaction s b).2.1.txn = TransactionState.Idle) := by
  obtain ⟨st, ty, tx, ld⟩ := s
  obtain ⟨hb, tb, c⟩ := b
  cases st <;> cases tx <;> cases hb <;>
    simp [begin_transaction, commit_transaction, rollback_transaction]

/-- Witness for C2: with a concrete Active session, a second
`begin_transaction` fails with no state change, and with a concrete Idle
session, `commit_transaction` and `rollback_transaction` fail. -/
theorem transaction_state_machine_witness :
    begin_transaction sActive bDemo = (false, sActive, bDemo) ∧
    commit_transaction sConn bDemo = (false, sConn, bDemo) ∧
    rollback_transaction sConn bDemo = (false, sConn, bDemo) :=
  ⟨(transaction_state_machine sActive bDemo).1 rfl,
   ((transaction_state_machine sConn bDemo).2.2.2.1 rfl).1,
   ((transaction_state_machine sConn bDemo).2.2.2.1 rfl).2⟩

/-- C3: a select whose execution succeeds but matches zero rows returns a
present, empty Query Result, whereas a select issued on a disconnected
session returns an absent result, and the two outcomes are distinguishable
by the caller. -/
theorem select_empty_vs_absent (s s' : Session) (b b' : Backend)
    (tbl : String) (p : RawRow → Bool)
    (hs : s.status = ConnectionStatus.Connected) (hb : b.healthy = true)
    (hz : (getTable b tbl).filter p = [])
    (hs' : s'.status = ConnectionStatus.Disconnected) :
    (select_query s b tbl p).1 = Option.some [] ∧
    (select_query s' b' tbl p).1 = Option.none ∧
    (select_query s b tbl p).1 ≠ (select_query s' b' tbl p).1 := by
  simp [select_query, hs, hb, hz, hs']

/-- Witness for C3 at a concrete connected session whose filter matches no
row and at a concrete disconnected session. -/
theorem select_empty_vs_absent_witness :
    (select_query sConn bDemo "t" (fun _ => false)).1 = Option.some [] ∧
    (select_query sDisc bDemo "t" (fun _ => false)).1 = Option.none ∧
    (select_query sConn bDemo "t" (fun _ => false)).1 ≠
      (select_query sDisc bDemo "t" (fun _ => false)).1 :=
  select_empty_vs_absent sConn sDisc bDemo bDemo "t" (fun _ => false)
    rfl rfl rfl rfl

/-- C4: a successful insert statement carrying N value-rows returns an
affected-count of N; successful update and delete return the count of
rows actually matched by their predicate, and 0 when no rows match. -/
theorem write_counts (s : Session) (b : Backend) (tbl : String)
    (vals : List RawRow) (p : RawRow → Bool) (f : RawRow → RawRow)
    (hs : s.status = ConnectionStatus.Connected) (hb : b.healthy = true) :
    (insert_query s b tbl vals).1 = vals.length ∧
    (update_query s b tbl p f).1 = (getTable b tbl).countP p ∧
    (delete_query s b tbl p).1 = (getTable b tbl).countP p ∧
    ((getTable b tbl).countP p = 0 →
      (update_query s b tbl p f).1 = 0 ∧ (delete_query s b tbl p).1 = 0) := by
  simp [insert_query, update_query, delete_query, hs, hb]

/-- Witness for C4: inserting the two demo rows reports 2; an update
matching both rows reports 2; a delete matching none reports 0. -/
theorem write_counts_witness :
    (insert_query sConn bDemo "t" demoRows).1 = 2 ∧
    (update_query sConn bDemo "t" (fun r => !r.isEmpty) id).1 = 2 ∧
    (delete_query sConn bDemo "t" (fun _ => false)).1 = 0 :=
  have h1 := write_counts sConn bDemo "t" demoRows (fun r => !r.isEmpty) id rfl rfl
  have h2 := write_counts sConn bDemo "t" demoRows (fun _ => false) id rfl rfl
  ⟨h1.1, by rw [h1.2.1]; rfl, (h2.2.2.2 rfl).2⟩

/-- C5: after one successful `disconnect` from a Connected session, a
second immediate `disconnect` returns failure while the status remains
Disconnected — status-level idempotence with operation-level failure. -/
theorem double_disconnect (s : Session) (b : Backend)
    (hs : s.status = ConnectionStatus.Connected) :
    (disconnect s b).1 = true ∧
    (disconnect s b).2.1.status = ConnectionStatus.Disconnected ∧
    (disconnect (disconnect s b).2.1 (disconnect s b).2.2).1 = false ∧
    (disconnect (disconnect s b).2.1 (disconnect s b).2.2).2.1.status =
      ConnectionStatus.Disconnected := by
  simp [disconnect, hs]

/-- Witness for C5 at a concrete connected session. -/
theorem double_disconnect_witness :
    (disconnect sConn bDemo).1 = true ∧
    (disconnect (disconnect sConn bDemo).2.1 (disconnect sConn bDemo).2.2).1 = false :=
  have h := double_disconnect sConn bDemo rfl
  ⟨h.1, h.2.2.1⟩

/-- C7: for every syntactically malformed connection descriptor — unknown
syntax or missing required keys — `connect` returns failure with the
session and the backend (including its network-call counter) unchanged,
so no network round trip is performed. -/
theorem malformed_connect_no_round_trip (s : Session) (b : Backend)
    (d : String) (hd : wellFormed d = false) :
    connect s b d = (false, s, b) := by
  simp [connect, hd]

/-- Witness for C7 at the unit tests' concrete malformed descriptor
`invalid_connection_string`. -/
theorem malformed_connect_no_round_trip_witness :
    connect sDisc bDemo "invalid_connection_string" = (false, sDisc, bDemo) :=
  malformed_connect_no_round_trip sDisc bDemo "invalid_connection_string" (by decide)

/-- C8: `test_connection` is a total function (it cannot throw): it leaves
the session — its Transaction State and all other session state —
unchanged regardless of outcome, and every backend error during the health
round trip is reported as the value `false` (unhealthy). -/
theorem test_connection_frame (s : Session) (b : Backend) :
    (test_connection s b).2.1 = s ∧
    (b.healthy = false → (test_connection s b).1 = false) := by
  constructor
  · unfold test_connection
    split <;> rfl
  · intro hb
    unfold test_connection
    split <;> simp [hb]

/-- Witness for C8 at a concrete connected session and a failing backend. -/
theorem test_connection_frame_witness :
    (test_connection sConn bUnhealthy).2.1 = sConn ∧
    (test_connection sConn bUnhealthy).1 = false :=
  ⟨(test_connection_frame sConn bUnhealthy).1,
   (test_connection_frame sConn bUnhealthy).2 rfl⟩

/-- Every call in a sequence of accessor calls returns the result of the
first call, and the process state is fixed after the first call. -/
theorem handle_iter_eq_first (p : ProcessState) (n : Nat) :
    handle_iter p n = ((handle p).1, (handle p).2) := by
  obtain ⟨i, m⟩ := p
  induction n with
  | zero => rfl
  | succ k ih =>
    show handle (handle_iter ⟨i, m⟩ k).2 = _
    rw [ih]
    cases i <;> rfl

/-- C9: the process-wide default accessor `database_manager::handle()`
returns one process-wide instance whose identity is stable across all
callers: in any sequence of accessor calls (concurrent callers are
serialized by the accessor's synchronized lazy initialization), every two
calls yield the same instance. -/
theorem handle_identity_stable (p : ProcessState) (m n : Nat) :
    (handle_iter p m).1 = (handle_iter p n).1 := by
  rw [handle_iter_eq_first p m, handle_iter_eq_first p n]

/-- C10: a freshly created manager has database kind `none` before any
`set_mode` call, the backend-kind enum encodes `none` as 0 and `postgres`
as 1, and setting the mode to postgres succeeds and is then observable
through `database_type()`. -/
theorem default_kind_and_set_mode :
    database_type freshSession = database_types.none ∧
    database_types.toNat database_types.none = 0 ∧
    database_types.toNat database_types.postgres = 1 ∧
    (set_mode freshSession database_types.postgres).1 = true ∧
    database_type (set_mode freshSession database_types.postgres).2 =
      database_types.postgres :=
  ⟨rfl, rfl, rfl, rfl, rfl⟩

end DatabaseSystem
